import Mathlib

/-!
Verification of the detection-review core of the `infinite-slop` repository
(`detect_animals.py`, `detect_faces_simple.py`) against its natural-language
specification.

Modelling conventions (shallow embedding of the Python source):
* Filesystem paths are lists of path components (`List String`); `pathlib`
  path arithmetic (`parent`, `name`, `parts[0]`, `relative_to`, `/`) becomes
  list arithmetic on the components.
* Python floats (confidences, thresholds) are modelled as rationals `ℚ`;
  the comparisons performed by the code (`>=` against literal thresholds)
  are order-comparisons of the represented values, which `ℚ` reflects.
* File modification times and sizes are `Nat` (only equality of the pair
  matters to the code).
* The md5 digest of the key string `f"{path}_{mtime}_{size}"` is abstracted
  as the triple `(path, mtime, size)` itself: for a fixed path the key
  string is injective in `(mtime, size)` (the decimal renderings of mtime
  and size contain no underscore), and md5 is treated as collision-free.
* Fallible operations (``stat``, ``open``/``pickle.load``, the YOLO call,
  filesystem mutations) are given explicit outcomes: `Except` values or a
  boolean failure oracle, mirroring the `try`/`except` structure of the
  source.
-/

/-- One raw bounding box as produced by the external YOLO model:
`box.xyxy[0]`, `box.conf[0]`, `box.cls[0]`.  The `int(...)` truncation of the
coordinates is absorbed into the `Int` representation. -/
structure RawBox where
  xyxy : Int × Int × Int × Int
  conf : ℚ
  cls : Nat
  deriving Repr, DecidableEq

namespace DetectionCache

/-- `self.stats = {'hits': 0, 'misses': 0, 'invalid': 0}` of `DetectionCache`
(identical in `detect_animals.py` and `detect_faces_simple.py`). -/
structure Stats where
  hits : Nat
  misses : Nat
  invalid : Nat
  deriving Repr, DecidableEq

/-- Cache key: the data `_get_file_hash` digests, namely the queried path and
the `st_mtime` / `st_size` of the file (md5 abstracted as injective). -/
abbrev Key := List String × Nat × Nat

/-- What a stored `<hash>.pkl` file holds from a reader's point of view:
either a pickled entry (the embedded `'path'` plus the cached result payload),
or bytes on which `pickle.load` raises. -/
inductive Stored (α : Type) where
  | entry (path : List String) (result : α)
  | corrupt
  deriving Repr, DecidableEq

/-- The cache directory: an association list from key to stored file; a fresh
write shadows an older entry at the same key. -/
abbrev Store (α : Type) := List (Key × Stored α)

/-- Reading the cache file for a key (`cache_path.exists()` + `open`):
first (most recent) store entry whose key matches. -/
def findEntry {α : Type} : Store α → Key → Option (Stored α)
  | [], _ => none
  | (k, v) :: rest, key => if k = key then some v else findEntry rest key

/-- `DetectionCache.get` (detect_animals.py lines 102-123, identical in
detect_faces_simple.py lines 44-65).
`statRes` is the outcome of `file_path.stat()` inside `_get_file_hash`:
`.ok (mtime, size)` or `.error` when `stat` raises.  Returns the optional
cached result together with the updated statistics.  The whole body is a
`try`/`except`: a `stat` failure or a `pickle.load` failure (a `corrupt`
stored file) lands in the `except` branch, which bumps `invalid` and returns
`None`; the function is total, so no exception ever propagates. -/
def get {α : Type} (σ : Store α) (st : Stats) (path : List String)
    (statRes : Except Unit (Nat × Nat)) : Option α × Stats :=
  match statRes with
  | .error _ => (none, { st with invalid := st.invalid + 1 })
  | .ok (m, s) =>
    match findEntry σ (path, m, s) with
    | some (.entry p r) =>
      if p = path then
        (some r, { st with hits := st.hits + 1 })
      else
        (none, { st with invalid := st.invalid + 1, misses := st.misses + 1 })
    | some .corrupt => (none, { st with invalid := st.invalid + 1 })
    | none => (none, { st with misses := st.misses + 1 })

/-- `DetectionCache.set` (detect_animals.py lines 125-134).  `statRes` is the
outcome of `file_path.stat()`; `writeOk` says whether the `open`/`pickle.dump`
write succeeds.  Both failure modes are swallowed by the `try`/`except`,
leaving the store unchanged. -/
def set {α : Type} (σ : Store α) (path : List String)
    (statRes : Except Unit (Nat × Nat)) (writeOk : Bool) (r : α) : Store α :=
  match statRes with
  | .error _ => σ
  | .ok (m, s) =>
    if writeOk then ((path, m, s), Stored.entry path r) :: σ else σ

end DetectionCache

namespace DetectAnimals

/-- `ANIMAL_CLASSES` (detect_animals.py lines 43-69): COCO class index to
class-name mapping, including the documented non-living classes 24-28. -/
def ANIMAL_CLASSES : List (Nat × String) :=
  [(14, "bird"), (15, "cat"), (16, "dog"), (17, "horse"), (18, "sheep"),
   (19, "cow"), (20, "elephant"), (21, "bear"), (22, "zebra"), (23, "giraffe"),
   (24, "backpack"), (25, "umbrella"), (26, "handbag"), (27, "tie"), (28, "suitcase")]

/-- `LIVING_SUBJECT_CLASSES` (detect_animals.py line 73). -/
def LIVING_SUBJECT_CLASSES : List Nat := [14, 15, 16, 17, 18, 19, 20, 21, 22, 23]

/-- `ANIMAL_CLASSES.get(class_id, f'animal_class_{class_id}')`. -/
def className (cid : Nat) : String :=
  match ANIMAL_CLASSES.find? (fun q => q.1 == cid) with
  | some q => q.2
  | none => "animal_class_" ++ toString cid

/-- One retained detection as built at detect_animals.py lines 255-260. -/
structure Detection where
  bbox : Int × Int × Int × Int
  confidence : ℚ
  cls : Nat
  class_name : String
  deriving Repr, DecidableEq

/-- The result dictionary produced by `AnimalDetector.detect`
(detect_animals.py lines 262-286).  The error-branch dictionary carries no
`width`/`height`/`detections` keys; downstream reads them with
`.get('detections', [])`, so the absent list is modelled as `[]` and the
absent dimensions as `none`. -/
structure DetResult where
  path : List String
  width : Option Nat
  height : Option Nat
  detections : List Detection
  count : Nat
  has_detections : Bool
  animal_types : List String
  error : Option String
  deriving Repr, DecidableEq

/-- `AnimalDetector.detect` (detect_animals.py lines 226-286), cache layer
aside (`check_cache=False`).  `run` is the outcome of the `try` body up to the
loop over boxes: opening the image for its dimensions plus the flattened list
of raw YOLO boxes; an exception anywhere in the body selects the error
dictionary of lines 280-286.  `animal_types` is `list(set(...))`, modelled as
first-occurrence dedup. -/
def detect (threshold : ℚ) (path : List String)
    (run : Except String ((Nat × Nat) × List RawBox)) : DetResult :=
  match run with
  | .error e =>
    { path := path, width := none, height := none, detections := [],
      count := 0, has_detections := false, animal_types := [], error := some e }
  | .ok ((w, h), boxes) =>
    let dets := boxes.filterMap (fun b =>
      if LIVING_SUBJECT_CLASSES.contains b.cls && decide (threshold ≤ b.conf) then
        some { bbox := b.xyxy, confidence := b.conf, cls := b.cls,
               class_name := className b.cls }
      else
        none)
    { path := path, width := some w, height := some h, detections := dets,
      count := dets.length, has_detections := decide (0 < dets.length),
      animal_types := (dets.map (·.class_name)).dedup, error := none }

end DetectAnimals

namespace DetectFaces

/-- One retained detection as built at detect_faces_simple.py lines 200-204
(no class name field). -/
structure Detection where
  bbox : Int × Int × Int × Int
  confidence : ℚ
  cls : Nat
  deriving Repr, DecidableEq

/-- The result dictionary produced by `SimpleFaceDetector.detect`
(detect_faces_simple.py lines 206-228); error branch as in the animals
detector. -/
structure DetResult where
  path : List String
  width : Option Nat
  height : Option Nat
  detections : List Detection
  count : Nat
  has_detections : Bool
  error : Option String
  deriving Repr, DecidableEq

/-- `SimpleFaceDetector.detect` (detect_faces_simple.py lines 170-228), cache
layer aside.  In person mode only class 0 is kept (line 194); then the
confidence threshold is applied. -/
def detect (threshold : ℚ) (personMode : Bool) (path : List String)
    (run : Except String ((Nat × Nat) × List RawBox)) : DetResult :=
  match run with
  | .error e =>
    { path := path, width := none, height := none, detections := [],
      count := 0, has_detections := false, error := some e }
  | .ok ((w, h), boxes) =>
    let dets := boxes.filterMap (fun b =>
      if personMode && !(b.cls == 0) then
        none
      else if decide (threshold ≤ b.conf) then
        some { bbox := b.xyxy, confidence := b.conf, cls := b.cls }
      else
        none)
    { path := path, width := some w, height := some h, detections := dets,
      count := dets.length, has_detections := decide (0 < dets.length),
      error := none }

end DetectFaces

/-- Python `str.endswith`, computed on the character list of the strings. -/
def strEndsWith (f suffix : String) : Bool :=
  suffix.data.isSuffixOf f.data

/-- Python `str.upper` (ASCII range, as relevant to file extensions). -/
def strUpper (s : String) : String :=
  ⟨s.data.map Char.toUpper⟩

/-- Python `str.lower` (ASCII range), used to state case-insensitive
comparison. -/
def strLower (s : String) : String :=
  ⟨s.data.map Char.toLower⟩

/-- The file-collection loop of `scan_directory` (detect_animals.py lines
309-312, identical in detect_faces_simple.py lines 237-240): for each
configured extension, the files matching `**/*<ext>` and then those matching
`**/*<EXT.upper()>` are appended.  `files` is the directory's recursive file
listing in filesystem order; a glob pattern `*<suffix>` keeps the names
ending in that suffix (glob is case-sensitive). -/
def scan_directory (files : List String) (extensions : List String) :
    List String :=
  extensions.flatMap (fun ext =>
    files.filter (fun f => strEndsWith f ext) ++
    files.filter (fun f => strEndsWith f (strUpper ext)))

/-- A single filesystem write event, for describing what `DetectionCache.set`
does to the entry file. -/
inductive WriteEv where
  | openTrunc (p : List String)
  | writeAll (p : List String) (data : List Nat)
  | renameInto (tmp dst : List String)
  deriving Repr, DecidableEq

/-- Whether an event is a rename (the mechanism the spec prescribes for
atomic entry writes). -/
def WriteEv.isRenameInto : WriteEv → Bool
  | .renameInto _ _ => true
  | _ => false

/-- Contents of the cache directory: association of file path to byte
content (most recent write first). -/
abbrev FsFiles := List (List String × List Nat)

/-- Overwrite the content at a path. -/
def fsWrite (fs : FsFiles) (p : List String) (d : List Nat) : FsFiles :=
  (p, d) :: fs

/-- What a reader sees at a path. -/
def fsRead : FsFiles → List String → Option (List Nat)
  | [], _ => none
  | (q, d) :: rest, p => if q = p then some d else fsRead rest p

/-- Effect of one write event on the directory contents.  `open(path, 'wb')`
creates/truncates the file (it becomes observable with empty content);
writing fills in the data; a rename makes the destination appear with its
complete content in one step. -/
def applyEv (fs : FsFiles) : WriteEv → FsFiles
  | .openTrunc p => fsWrite fs p []
  | .writeAll p d => fsWrite fs p d
  | .renameInto tmp dst =>
    match fsRead fs tmp with
    | some d => fsWrite fs dst d
    | none => fs

/-- The sequence of write events performed by the body of
`DetectionCache.set` (detect_animals.py lines 131-132, identical in
detect_faces_simple.py lines 73-74): `open(cache_path, 'wb')` followed by
`pickle.dump(result, f)`, both addressed directly at the final cache path.
`data` stands for the pickled bytes of the result. -/
def DetectionCache.setEvents (cache_path : List String) (data : List Nat) :
    List WriteEv :=
  [WriteEv.openTrunc cache_path, WriteEv.writeAll cache_path data]

/-- All directory states a concurrent reader can observe while a sequence of
write events runs: the state before each event and after the last. -/
def runStates (fs : FsFiles) : List WriteEv → List FsFiles
  | [] => [fs]
  | e :: es => fs :: runStates (applyEv fs e) es

/-- A filesystem mutation attempted by `move_to_review`. -/
inductive FsOp where
  | mkdir (p : List String)
  | move (src tgt : List String)
  | symlink (src tgt : List String)
  | unlink (p : List String)
  | writeFile (p : List String)
  deriving Repr, DecidableEq

/-- Environment for one run of `move_to_review`: which filesystem operations
raise an exception, and which target paths already exist (consulted by the
symlink branch). -/
structure FsEnv where
  fails : FsOp → Bool
  pathExists : List String → Bool

/-- Environment in which every filesystem operation succeeds. -/
def noFailEnv (pe : List String → Bool) : FsEnv :=
  { fails := fun _ => false, pathExists := pe }

/-- Python `max(...)` over a list of rationals: `none` (a `ValueError`) on
the empty list, otherwise the left fold of binary max. -/
def pyMax : List ℚ → Option ℚ
  | [] => none
  | c :: cs => some (cs.foldl max c)

namespace DetectAnimals

/-- The `movement_info` dictionary (detect_animals.py lines 424-430). -/
structure MovementInfo where
  source : List String
  target : List String
  count : Nat
  types : List String
  max_confidence : ℚ
  deriving Repr, DecidableEq

/-- An entry of `movements['errors']` (detect_animals.py lines 452-455). -/
structure ErrorRecord where
  path : List String
  error : String
  deriving Repr, DecidableEq

/-- Which movement list a record is appended to. -/
inductive Category where
  | by_type (label : String)
  | mixed
  deriving Repr, DecidableEq

/-- Everything one iteration of the `for result in results` loop of
`move_to_review` contributes: the by-type key registered at category-choice
time (even if a later step of the same iteration raises), the movement
record, the error record, and the filesystem mutations actually performed. -/
structure ProcOut where
  registered : Option String
  record : Option (Category × MovementInfo)
  errorRec : Option ErrorRecord
  ops : List FsOp
  deriving Repr, DecidableEq

/-- The body of the `for result in results` loop of `move_to_review`
(detect_animals.py lines 388-455) for one result that has detections, with
the `try`/`except` made explicit: the steps run in source order — category
choice and by-type key registration, `relative_to(parts[0])` (an
`IndexError` when the source parent has no parts), `mkdir` when not dry-run,
`max()` over the detections inside the `movement_info` construction (a
`ValueError` on an empty list), the record append, and finally the
move/symlink.  The first raising step sends the iteration to the `except`
branch, which appends an error record; mutations already performed stay
performed, and a record already appended stays appended. -/
def processResult (dry_run use_symlinks : Bool) (env : FsEnv)
    (review_dir : List String) (r : DetResult) : ProcOut :=
  let animal_types := r.animal_types
  let isSingle := animal_types.length == 1
  let label := animal_types.headD ""
  let registered := if isSingle then some label else none
  let category := if isSingle then Category.by_type label else Category.mixed
  let target_dir :=
    if isSingle then review_dir ++ ["by_animal_type", label]
    else review_dir ++ ["mixed_animals"]
  let parent := r.path.dropLast
  if parent.isEmpty then
    { registered := registered, record := none,
      errorRec := some { path := r.path, error := "IndexError" }, ops := [] }
  else
    let target_subdir := target_dir ++ parent.tail
    if !dry_run && env.fails (FsOp.mkdir target_subdir) then
      { registered := registered, record := none,
        errorRec := some { path := r.path, error := "mkdir failed" }, ops := [] }
    else
      let mkOps : List FsOp := if dry_run then [] else [FsOp.mkdir target_subdir]
      let target_path := target_subdir ++ [r.path.getLastD ""]
      match pyMax (r.detections.map (·.confidence)) with
      | none =>
        { registered := registered, record := none,
          errorRec := some { path := r.path, error := "ValueError" }, ops := mkOps }
      | some mc =>
        let info : MovementInfo :=
          { source := r.path, target := target_path, count := r.count,
            types := animal_types, max_confidence := mc }
        if dry_run then
          { registered := registered, record := some (category, info),
            errorRec := none, ops := [] }
        else if use_symlinks then
          if env.pathExists target_path && env.fails (FsOp.unlink target_path) then
            { registered := registered, record := some (category, info),
              errorRec := some { path := r.path, error := "unlink failed" },
              ops := mkOps }
          else
            let unOps : List FsOp :=
              if env.pathExists target_path then [FsOp.unlink target_path] else []
            if env.fails (FsOp.symlink r.path target_path) then
              { registered := registered, record := some (category, info),
                errorRec := some { path := r.path, error := "symlink failed" },
                ops := mkOps ++ unOps }
            else
              { registered := registered, record := some (category, info),
                errorRec := none,
                ops := mkOps ++ unOps ++ [FsOp.symlink r.path target_path] }
        else
          if env.fails (FsOp.move r.path target_path) then
            { registered := registered, record := some (category, info),
              errorRec := some { path := r.path, error := "move failed" },
              ops := mkOps }
          else
            { registered := registered, record := some (category, info),
              errorRec := none, ops := mkOps ++ [FsOp.move r.path target_path] }

/-- The `movements` accumulator of `move_to_review`
(detect_animals.py lines 381-385). -/
structure Movements where
  by_type : List (String × List MovementInfo)
  mixed : List MovementInfo
  errors : List ErrorRecord
  deriving Repr, DecidableEq

/-- `movements = {'by_type': {}, 'mixed': [], 'errors': []}`. -/
def emptyMovements : Movements := { by_type := [], mixed := [], errors := [] }

/-- `if animal_type not in movements['by_type']:
movements['by_type'][animal_type] = []` (lines 402-403); Python dicts keep
insertion order. -/
def registerType (m : List (String × List MovementInfo)) (k : String) :
    List (String × List MovementInfo) :=
  if m.any (fun q => q.1 == k) then m else m ++ [(k, [])]

/-- `movements['by_type'][sub_category].append(movement_info)` (line 433). -/
def appendToType (m : List (String × List MovementInfo)) (k : String)
    (v : MovementInfo) : List (String × List MovementInfo) :=
  match m with
  | [] => [(k, [v])]
  | (k', vs) :: rest =>
    if k' == k then (k', vs ++ [v]) :: rest
    else (k', vs) :: appendToType rest k v

/-- Folding one loop iteration's contributions into the accumulator, in
source order: key registration, record append, error append. -/
def applyOut (mv : Movements) (out : ProcOut) : Movements :=
  let mv1 :=
    match out.registered with
    | some k => { mv with by_type := registerType mv.by_type k }
    | none => mv
  let mv2 :=
    match out.record with
    | some (Category.by_type l, i) =>
      { mv1 with by_type := appendToType mv1.by_type l i }
    | some (Category.mixed, i) => { mv1 with mixed := mv1.mixed ++ [i] }
    | none => mv1
  match out.errorRec with
  | some e => { mv2 with errors := mv2.errors ++ [e] }
  | none => mv2

/-- One step of the results loop: results without detections are skipped
(detect_animals.py lines 389-390). -/
def moveStep (dry_run use_symlinks : Bool) (env : FsEnv)
    (review_dir : List String) (acc : Movements × List FsOp) (r : DetResult) :
    Movements × List FsOp :=
  if r.has_detections then
    let out := processResult dry_run use_symlinks env review_dir r
    (applyOut acc.1 out, acc.2 ++ out.ops)
  else acc

/-- The summary dictionary of `move_to_review`
(detect_animals.py lines 458-468); the timestamp is not modelled. -/
structure Summary where
  dry_run : Bool
  use_symlinks : Bool
  total_candidates : Nat
  by_animal_type : List (String × Nat)
  mixed_animals : Nat
  errors : Nat
  movements : Movements
  deriving Repr, DecidableEq

/-- `move_to_review` (detect_animals.py lines 354-502): creates the two
bucket roots when not in dry-run mode, loops over the results, assembles the
summary, and — only when not in dry-run mode — writes `review_summary.json`
and `README.txt` under the review directory.  Returns the summary and the
list of filesystem mutations performed.  The two unconditional root `mkdir`
calls and the two report writes are outside the per-file `try` and are
modelled as always succeeding. -/
def move_to_review (results : List DetResult) (review_dir : List String)
    (dry_run use_symlinks : Bool) (env : FsEnv) : Summary × List FsOp :=
  let initOps : List FsOp :=
    if dry_run then []
    else [FsOp.mkdir (review_dir ++ ["by_animal_type"]),
          FsOp.mkdir (review_dir ++ ["mixed_animals"])]
  let folded := results.foldl (moveStep dry_run use_symlinks env review_dir)
    (emptyMovements, initOps)
  let mv := folded.1
  let total_by_type := (mv.by_type.map (fun q => q.2.length)).sum
  let summary : Summary :=
    { dry_run := dry_run, use_symlinks := use_symlinks,
      total_candidates := total_by_type + mv.mixed.length,
      by_animal_type := mv.by_type.map (fun q => (q.1, q.2.length)),
      mixed_animals := mv.mixed.length,
      errors := mv.errors.length,
      movements := mv }
  let finalOps :=
    if dry_run then folded.2
    else folded.2 ++ [FsOp.writeFile (review_dir ++ ["review_summary.json"]),
                      FsOp.writeFile (review_dir ++ ["README.txt"])]
  (summary, finalOps)

/-- `sum(len(files) for files in movements['by_type'].values())`
(detect_animals.py line 458). -/
def sumByType (m : List (String × List MovementInfo)) : Nat :=
  (m.map (fun q => q.2.length)).sum

/-- Total number of relocation records held by the accumulator: movement
records in the by-type buckets and the mixed bucket, plus error records. -/
def Movements.recordCount (mv : Movements) : Nat :=
  sumByType mv.by_type + mv.mixed.length + mv.errors.length

/-- Number of records one loop iteration contributes. -/
def ProcOut.recordCount (out : ProcOut) : Nat :=
  (if out.record.isSome then 1 else 0) + (if out.errorRec.isSome then 1 else 0)

end DetectAnimals

namespace DetectFaces

/-- A record of `movements['high'|'medium'|'low']`
(detect_faces_simple.py lines 313-318). -/
structure MovementRecord where
  source : List String
  target : List String
  confidence : ℚ
  detections : Nat
  deriving Repr, DecidableEq

/-- An entry of `movements['errors']` (detect_faces_simple.py lines
335-338). -/
structure ErrorRecord where
  path : List String
  error : String
  deriving Repr, DecidableEq

/-- Which confidence bucket a record is appended to. -/
inductive Category where
  | high
  | medium
  | low
  deriving Repr, DecidableEq

/-- One loop iteration's contributions. -/
structure ProcOut where
  record : Option (Category × MovementRecord)
  errorRec : Option ErrorRecord
  ops : List FsOp
  deriving Repr, DecidableEq

/-- The body of the `for result in results` loop of the confidence-band
`move_to_review` (detect_faces_simple.py lines 282-338), `try`/`except` made
explicit.  Source order: `max()` over the detections first (a `ValueError`
on an empty list), then the confidence-band choice — `high` when
max ≥ 0.8, `medium` when 0.5 ≤ max < 0.8, `low` otherwise — then
`relative_to(parts[0])`, `mkdir` when not dry-run, record append, and the
move/symlink. -/
def processResult (dry_run use_symlinks : Bool) (env : FsEnv)
    (review_dir : List String) (r : DetResult) : ProcOut :=
  match pyMax (r.detections.map (·.confidence)) with
  | none =>
    { record := none,
      errorRec := some { path := r.path, error := "ValueError" }, ops := [] }
  | some max_confidence =>
    let catDir :=
      if 4/5 ≤ max_confidence then
        (Category.high, review_dir ++ ["high_confidence"])
      else if 1/2 ≤ max_confidence then
        (Category.medium, review_dir ++ ["medium_confidence"])
      else
        (Category.low, review_dir ++ ["low_confidence"])
    let parent := r.path.dropLast
    if parent.isEmpty then
      { record := none,
        errorRec := some { path := r.path, error := "IndexError" }, ops := [] }
    else
      let target_subdir := catDir.2 ++ parent.tail
      if !dry_run && env.fails (FsOp.mkdir target_subdir) then
        { record := none,
          errorRec := some { path := r.path, error := "mkdir failed" }, ops := [] }
      else
        let mkOps : List FsOp := if dry_run then [] else [FsOp.mkdir target_subdir]
        let target_path := target_subdir ++ [r.path.getLastD ""]
        let rec0 : MovementRecord :=
          { source := r.path, target := target_path,
            confidence := max_confidence, detections := r.count }
        if dry_run then
          { record := some (catDir.1, rec0), errorRec := none, ops := [] }
        else if use_symlinks then
          if env.pathExists target_path && env.fails (FsOp.unlink target_path) then
            { record := some (catDir.1, rec0),
              errorRec := some { path := r.path, error := "unlink failed" },
              ops := mkOps }
          else
            let unOps : List FsOp :=
              if env.pathExists target_path then [FsOp.unlink target_path] else []
            if env.fails (FsOp.symlink r.path target_path) then
              { record := some (catDir.1, rec0),
                errorRec := some { path := r.path, error := "symlink failed" },
                ops := mkOps ++ unOps }
            else
              { record := some (catDir.1, rec0), errorRec := none,
                ops := mkOps ++ unOps ++ [FsOp.symlink r.path target_path] }
        else
          if env.fails (FsOp.move r.path target_path) then
            { record := some (catDir.1, rec0),
              errorRec := some { path := r.path, error := "move failed" },
              ops := mkOps }
          else
            { record := some (catDir.1, rec0), errorRec := none,
              ops := mkOps ++ [FsOp.move r.path target_path] }

/-- The `movements` accumulator (detect_faces_simple.py lines 274-279). -/
structure Movements where
  high : List MovementRecord
  medium : List MovementRecord
  low : List MovementRecord
  errors : List ErrorRecord
  deriving Repr, DecidableEq

/-- `movements = {'high': [], 'medium': [], 'low': [], 'errors': []}`. -/
def emptyMovements : Movements :=
  { high := [], medium := [], low := [], errors := [] }

/-- Folding one loop iteration's contributions into the accumulator. -/
def applyOut (mv : Movements) (out : ProcOut) : Movements :=
  let mv1 :=
    match out.record with
    | some (Category.high, i) => { mv with high := mv.high ++ [i] }
    | some (Category.medium, i) => { mv with medium := mv.medium ++ [i] }
    | some (Category.low, i) => { mv with low := mv.low ++ [i] }
    | none => mv
  match out.errorRec with
  | some e => { mv1 with errors := mv1.errors ++ [e] }
  | none => mv1

/-- One step of the results loop: results without detections are skipped
(detect_faces_simple.py lines 283-284). -/
def moveStep (dry_run use_symlinks : Bool) (env : FsEnv)
    (review_dir : List String) (acc : Movements × List FsOp) (r : DetResult) :
    Movements × List FsOp :=
  if r.has_detections then
    let out := processResult dry_run use_symlinks env review_dir r
    (applyOut acc.1 out, acc.2 ++ out.ops)
  else acc

/-- The summary dictionary (detect_faces_simple.py lines 341-351); the
timestamp is not modelled. -/
structure Summary where
  dry_run : Bool
  use_symlinks : Bool
  total_candidates : Nat
  high_confidence : Nat
  medium_confidence : Nat
  low_confidence : Nat
  errors : Nat
  movements : Movements
  deriving Repr, DecidableEq

/-- The confidence-band `move_to_review`
(detect_faces_simple.py lines 261-384). -/
def move_to_review (results : List DetResult) (review_dir : List String)
    (dry_run use_symlinks : Bool) (env : FsEnv) : Summary × List FsOp :=
  let initOps : List FsOp :=
    if dry_run then []
    else [FsOp.mkdir (review_dir ++ ["high_confidence"]),
          FsOp.mkdir (review_dir ++ ["medium_confidence"]),
          FsOp.mkdir (review_dir ++ ["low_confidence"])]
  let folded := results.foldl (moveStep dry_run use_symlinks env review_dir)
    (emptyMovements, initOps)
  let mv := folded.1
  let summary : Summary :=
    { dry_run := dry_run, use_symlinks := use_symlinks,
      total_candidates := mv.high.length + mv.medium.length + mv.low.length,
      high_confidence := mv.high.length,
      medium_confidence := mv.medium.length,
      low_confidence := mv.low.length,
      errors := mv.errors.length,
      movements := mv }
  let finalOps :=
    if dry_run then folded.2
    else folded.2 ++ [FsOp.writeFile (review_dir ++ ["review_summary.json"]),
                      FsOp.writeFile (review_dir ++ ["README.txt"])]
  (summary, finalOps)

end DetectFaces

/-- Claim C1: for a file whose path, mtime and size are unchanged between a
`DetectionCache.set(path, result)` and a later `DetectionCache.get(path)`,
the get records a hit and returns the stored result; for a file whose mtime
or size changed after the set (and whose new identity key has no stale cache
entry), the next `get(path)` records a miss and returns absent. -/
theorem cache_set_then_get {α : Type} (σ : DetectionCache.Store α)
    (st : DetectionCache.Stats) (p : List String) (m s m' s' : Nat) (r : α)
    (hne : ¬(m' = m ∧ s' = s))
    (habs : DetectionCache.findEntry σ (p, m', s') = none) :
    DetectionCache.get (DetectionCache.set σ p (.ok (m, s)) true r) st p (.ok (m, s))
      = (some r, { st with hits := st.hits + 1 }) ∧
    DetectionCache.get (DetectionCache.set σ p (.ok (m, s)) true r) st p (.ok (m', s'))
      = (none, { st with misses := st.misses + 1 }) := by
  constructor
  · simp [DetectionCache.get, DetectionCache.set, DetectionCache.findEntry]
  · have hkey : ¬((p, m, s) : DetectionCache.Key) = (p, m', s') := by
      intro h
      apply hne
      exact ⟨(congrArg (fun k : DetectionCache.Key => k.2.1) h).symm,
             (congrArg (fun k : DetectionCache.Key => k.2.2) h).symm⟩
    have hfind : DetectionCache.findEntry
        (((p, m, s), DetectionCache.Stored.entry p r) :: σ) (p, m', s') = none := by
      rw [DetectionCache.findEntry, if_neg hkey]
      exact habs
    show DetectionCache.get (((p, m, s), DetectionCache.Stored.entry p r) :: σ)
        st p (.ok (m', s')) = _
    simp [DetectionCache.get, hfind]

/-- Witness for C1 at a concrete store, path, stat and result. -/
theorem cache_set_then_get_witness :
    DetectionCache.get
        (DetectionCache.set ([] : DetectionCache.Store Nat) ["gallery", "a.jpg"]
          (.ok (10, 20)) true 7)
        ⟨0, 0, 0⟩ ["gallery", "a.jpg"] (.ok (10, 20))
      = (some 7, { hits := 1, misses := 0, invalid := 0 }) ∧
    DetectionCache.get
        (DetectionCache.set ([] : DetectionCache.Store Nat) ["gallery", "a.jpg"]
          (.ok (10, 20)) true 7)
        ⟨0, 0, 0⟩ ["gallery", "a.jpg"] (.ok (10, 21))
      = (none, { hits := 0, misses := 1, invalid := 0 }) :=
  cache_set_then_get [] ⟨0, 0, 0⟩ ["gallery", "a.jpg"] 10 20 10 21 7
    (by decide) rfl

/-- Claim C7: any I/O or deserialization failure during a `DetectionCache.get`
is treated as the entry being absent: the call returns `none` and records an
`invalid` outcome, and — `get` being a total function whose `try` block covers
the whole read — the exception never propagates to the caller.  The first
conjunct covers a failing `stat`, the second a cache file on which
`pickle.load` raises. -/
theorem cache_get_read_failure {α : Type} :
    (∀ (σ : DetectionCache.Store α) (st : DetectionCache.Stats) (p : List String),
      DetectionCache.get σ st p (.error ())
        = (none, { st with invalid := st.invalid + 1 })) ∧
    (∀ (σ : DetectionCache.Store α) (st : DetectionCache.Stats) (p : List String)
        (m s : Nat),
      DetectionCache.findEntry σ (p, m, s) = some DetectionCache.Stored.corrupt →
      DetectionCache.get σ st p (.ok (m, s))
        = (none, { st with invalid := st.invalid + 1 })) := by
  constructor
  · intro σ st p
    rfl
  · intro σ st p m s h
    simp [DetectionCache.get, h]

/-- Witness for C7 at a concrete corrupt store. -/
theorem cache_get_read_failure_witness :
    DetectionCache.get ([] : DetectionCache.Store Nat) ⟨2, 3, 4⟩ ["x.jpg"] (.error ())
      = (none, { hits := 2, misses := 3, invalid := 5 }) ∧
    DetectionCache.get
        ([((["x.jpg"], 1, 2), DetectionCache.Stored.corrupt)] : DetectionCache.Store Nat)
        ⟨2, 3, 4⟩ ["x.jpg"] (.ok (1, 2))
      = (none, { hits := 2, misses := 3, invalid := 5 }) :=
  ⟨(cache_get_read_failure (α := Nat)).1 [] ⟨2, 3, 4⟩ ["x.jpg"],
   (cache_get_read_failure (α := Nat)).2
     [((["x.jpg"], 1, 2), DetectionCache.Stored.corrupt)] ⟨2, 3, 4⟩ ["x.jpg"] 1 2 rfl⟩

/-- Claim C10: a `DetectionCache.get` that finds an entry whose embedded
source path differs from the queried path returns absent and increments both
the `invalid` and the `misses` counter (the invalidation falls through to the
shared miss accounting), whereas a get whose read raises (failing `stat` or a
corrupt cache file) increments only the `invalid` counter, leaving hits and
misses unchanged. -/
theorem cache_get_counters {α : Type} :
    (∀ (σ : DetectionCache.Store α) (st : DetectionCache.Stats) (p q : List String)
        (m s : Nat) (r : α),
      DetectionCache.findEntry σ (p, m, s) = some (DetectionCache.Stored.entry q r) →
      q ≠ p →
      DetectionCache.get σ st p (.ok (m, s))
        = (none, { hits := st.hits, misses := st.misses + 1, invalid := st.invalid + 1 })) ∧
    (∀ (σ : DetectionCache.Store α) (st : DetectionCache.Stats) (p : List String),
      DetectionCache.get σ st p (.error ())
        = (none, { hits := st.hits, misses := st.misses, invalid := st.invalid + 1 })) ∧
    (∀ (σ : DetectionCache.Store α) (st : DetectionCache.Stats) (p : List String)
        (m s : Nat),
      DetectionCache.findEntry σ (p, m, s) = some DetectionCache.Stored.corrupt →
      DetectionCache.get σ st p (.ok (m, s))
        = (none, { hits := st.hits, misses := st.misses, invalid := st.invalid + 1 })) := by
  refine ⟨?_, ?_, ?_⟩
  · intro σ st p q m s r h hqp
    simp [DetectionCache.get, h, hqp]
  · intro σ st p
    rfl
  · intro σ st p m s h
    simp [DetectionCache.get, h]

/-- Witness for C10 at concrete stores. -/
theorem cache_get_counters_witness :
    DetectionCache.get
        ([((["a.jpg"], 1, 2), DetectionCache.Stored.entry ["b.jpg"] 9)] :
          DetectionCache.Store Nat)
        ⟨0, 0, 0⟩ ["a.jpg"] (.ok (1, 2))
      = (none, { hits := 0, misses := 1, invalid := 1 }) ∧
    DetectionCache.get ([] : DetectionCache.Store Nat) ⟨0, 0, 0⟩ ["a.jpg"] (.error ())
      = (none, { hits := 0, misses := 0, invalid := 1 }) :=
  ⟨(cache_get_counters (α := Nat)).1
      [((["a.jpg"], 1, 2), DetectionCache.Stored.entry ["b.jpg"] 9)]
      ⟨0, 0, 0⟩ ["a.jpg"] ["b.jpg"] 1 2 9 rfl (by decide),
   (cache_get_counters (α := Nat)).2.1 [] ⟨0, 0, 0⟩ ["a.jpg"]⟩

/-- Claim C3: every Result returned by a detector's `detect` operation
satisfies `has_detections == (count > 0)` and `count == len(detections)`, and
whenever the `error` field is set, `detections` is empty and `has_detections`
is false.  Stated for both `AnimalDetector.detect` and
`SimpleFaceDetector.detect`, over every threshold, path and outcome of the
image-open/model invocation. -/
theorem detect_result_invariant (threshold : ℚ) (personMode : Bool)
    (path : List String) (runA runF : Except String ((Nat × Nat) × List RawBox)) :
    (((DetectAnimals.detect threshold path runA).has_detections = true ↔
        0 < (DetectAnimals.detect threshold path runA).count) ∧
      (DetectAnimals.detect threshold path runA).count
        = (DetectAnimals.detect threshold path runA).detections.length ∧
      ((DetectAnimals.detect threshold path runA).error.isSome = true →
        (DetectAnimals.detect threshold path runA).detections = [] ∧
        (DetectAnimals.detect threshold path runA).has_detections = false)) ∧
    (((DetectFaces.detect threshold personMode path runF).has_detections = true ↔
        0 < (DetectFaces.detect threshold personMode path runF).count) ∧
      (DetectFaces.detect threshold personMode path runF).count
        = (DetectFaces.detect threshold personMode path runF).detections.length ∧
      ((DetectFaces.detect threshold personMode path runF).error.isSome = true →
        (DetectFaces.detect threshold personMode path runF).detections = [] ∧
        (DetectFaces.detect threshold personMode path runF).has_detections = false)) := by
  constructor
  · match runA with
    | .error e => simp [DetectAnimals.detect]
    | .ok ((w, h), boxes) => simp [DetectAnimals.detect]
  · match runF with
    | .error e => simp [DetectFaces.detect]
    | .ok ((w, h), boxes) => simp [DetectFaces.detect]

/-- Witness for C3 at a concrete threshold, path and raw model output. -/
theorem detect_result_invariant_witness :
    (((DetectAnimals.detect (1/2) ["g", "a.jpg"]
        (.ok ((640, 480), [⟨(0, 0, 5, 5), 9/10, 15⟩]))).has_detections = true ↔
        0 < (DetectAnimals.detect (1/2) ["g", "a.jpg"]
          (.ok ((640, 480), [⟨(0, 0, 5, 5), 9/10, 15⟩]))).count) ∧
      (DetectAnimals.detect (1/2) ["g", "a.jpg"]
          (.ok ((640, 480), [⟨(0, 0, 5, 5), 9/10, 15⟩]))).count
        = (DetectAnimals.detect (1/2) ["g", "a.jpg"]
            (.ok ((640, 480), [⟨(0, 0, 5, 5), 9/10, 15⟩]))).detections.length ∧
      ((DetectAnimals.detect (1/2) ["g", "a.jpg"]
          (.ok ((640, 480), [⟨(0, 0, 5, 5), 9/10, 15⟩]))).error.isSome = true →
        (DetectAnimals.detect (1/2) ["g", "a.jpg"]
          (.ok ((640, 480), [⟨(0, 0, 5, 5), 9/10, 15⟩]))).detections = [] ∧
        (DetectAnimals.detect (1/2) ["g", "a.jpg"]
          (.ok ((640, 480), [⟨(0, 0, 5, 5), 9/10, 15⟩]))).has_detections = false)) ∧
    (((DetectFaces.detect (1/2) true ["g", "a.jpg"]
        (.error "unreadable")).has_detections = true ↔
        0 < (DetectFaces.detect (1/2) true ["g", "a.jpg"]
          (.error "unreadable")).count) ∧
      (DetectFaces.detect (1/2) true ["g", "a.jpg"] (.error "unreadable")).count
        = (DetectFaces.detect (1/2) true ["g", "a.jpg"]
            (.error "unreadable")).detections.length ∧
      ((DetectFaces.detect (1/2) true ["g", "a.jpg"]
          (.error "unreadable")).error.isSome = true →
        (DetectFaces.detect (1/2) true ["g", "a.jpg"]
          (.error "unreadable")).detections = [] ∧
        (DetectFaces.detect (1/2) true ["g", "a.jpg"]
          (.error "unreadable")).has_detections = false)) :=
  detect_result_invariant (1/2) true ["g", "a.jpg"]
    (.ok ((640, 480), [⟨(0, 0, 5, 5), 9/10, 15⟩])) (.error "unreadable")

/-- Counterexample to claim C9: with the allowed extension list `['.jpg']`,
a file named `photo.Jpg` — whose extension compared case-insensitively is in
the allowed set — is NOT enumerated by `scan_directory`, because the code
globs only the extension exactly as configured and its fully-uppercased
variant. -/
theorem scan_directory_cex :
    (strEndsWith (strLower "photo.Jpg") ".jpg" = true) ∧
    "photo.Jpg" ∉ scan_directory ["photo.Jpg"] [".jpg"] := by
  constructor
  · decide
  · decide

/-- Claim C9 as amended: `scan_directory` enumerates exactly the files whose
name ends with one of the configured extensions written exactly as configured,
or with its fully-uppercased variant (so `.jpg` and `.JPG` are enumerated for
a configured `.jpg`, but mixed-case extensions such as `.Jpg` are not). -/
theorem scan_directory_mem (files extensions : List String) (f : String) :
    f ∈ scan_directory files extensions ↔
      f ∈ files ∧ ∃ ext ∈ extensions,
        (strEndsWith f ext = true ∨ strEndsWith f (strUpper ext) = true) := by
  simp only [scan_directory, List.mem_flatMap, List.mem_append, List.mem_filter]
  constructor
  · rintro ⟨ext, hext, h | h⟩
    · exact ⟨h.1, ext, hext, Or.inl h.2⟩
    · exact ⟨h.1, ext, hext, Or.inr h.2⟩
  · rintro ⟨hf, ext, hext, h | h⟩
    · exact ⟨ext, hext, Or.inl ⟨hf, h⟩⟩
    · exact ⟨ext, hext, Or.inr ⟨hf, h⟩⟩

/-- Counterexample to claim C8: `DetectionCache.set` is not atomic from a
reader's perspective.  Running its write events on an empty cache directory
passes through a state in which the final cache entry file exists but holds
none of the entry's bytes: a concurrent `get` at that moment loads a partial
entry.  (Its `pickle.load` then raises and the read degrades to invalid +
absent, per C7, but the partially written state is observable, contrary to
the claim.) -/
theorem cache_set_not_atomic_cex :
    (runStates [] (DetectionCache.setEvents ["cache", "abc.pkl"] [1, 2])).any
        (fun fs => (fsRead fs ["cache", "abc.pkl"]).isSome &&
          !((fsRead fs ["cache", "abc.pkl"]) == some [1, 2])) = true ∧
    (DetectionCache.setEvents ["cache", "abc.pkl"] [1, 2]).all
        (fun e => !e.isRenameInto) = true := by
  constructor
  · decide
  · decide

/-- Claim C8 as amended: `DetectionCache.set` writes the entry by opening the
final cache path (creating or truncating it) and then writing the serialized
bytes directly into it; no temporary file and no rename is involved, so the
intermediate state — entry file present with empty content — is observable by
a concurrent reader.  Any reader that does hit the partial state fails to
deserialize it and treats the entry as absent (claim C7). -/
theorem cache_set_write_shape (cache_path : List String) (data : List Nat)
    (fs : FsFiles) :
    DetectionCache.setEvents cache_path data
      = [WriteEv.openTrunc cache_path, WriteEv.writeAll cache_path data] ∧
    (DetectionCache.setEvents cache_path data).all (fun e => !e.isRenameInto) = true ∧
    runStates fs (DetectionCache.setEvents cache_path data)
      = [fs, fsWrite fs cache_path [], fsWrite (fsWrite fs cache_path []) cache_path data] := by
  refine ⟨rfl, rfl, ?_⟩
  simp [runStates, DetectionCache.setEvents, applyEv]

/-- The left fold of binary max over a list attains an element of
`c :: cs` and bounds every element of `c :: cs`. -/
theorem foldl_max_spec (cs : List ℚ) : ∀ c : ℚ,
    (cs.foldl max c = c ∨ cs.foldl max c ∈ cs) ∧
    c ≤ cs.foldl max c ∧ ∀ x ∈ cs, x ≤ cs.foldl max c := by
  induction cs with
  | nil =>
    intro c
    simp
  | cons x xs ih =>
    intro c
    have h := ih (max c x)
    rw [List.foldl_cons]
    refine ⟨?_, le_trans (le_max_left c x) h.2.1, ?_⟩
    · rcases h.1 with h1 | h1
      · rcases max_choice c x with hc | hc
        · left
          rw [h1, hc]
        · right
          rw [h1, hc]
          exact List.mem_cons_self x xs
      · right
        exact List.mem_cons_of_mem x h1
    · intro y hy
      rcases List.mem_cons.mp hy with hy | hy
      · rw [hy]
        exact le_trans (le_max_right c x) h.2.1
      · exact h.2.2 y hy

/-- `pyMax` returns the true numeric maximum: a member of the list that
dominates every member. -/
theorem pyMax_spec (l : List ℚ) (m : ℚ) (h : pyMax l = some m) :
    m ∈ l ∧ ∀ c ∈ l, c ≤ m := by
  match l with
  | [] => exact absurd h (by simp [pyMax])
  | c :: cs =>
    have hm : cs.foldl max c = m := by
      simpa [pyMax] using h
    have hs := foldl_max_spec cs c
    rw [hm] at hs
    refine ⟨?_, ?_⟩
    · rcases hs.1 with h1 | h1
      · rw [h1]
        exact List.mem_cons_self c cs
      · exact List.mem_cons_of_mem c h1
    · intro y hy
      rcases List.mem_cons.mp hy with hy | hy
      · rw [hy]
        exact hs.2.1
      · exact hs.2.2 y hy

namespace DetectAnimals

/-- One loop iteration contributes the same registration, record and error
in dry-run mode (under any environment) as in a real run in which no
filesystem operation fails; and in dry-run mode it performs no filesystem
mutation. -/
theorem processResult_dry_parts (use_symlinks : Bool) (env : FsEnv)
    (pe : List String → Bool) (review_dir : List String) (r : DetResult) :
    (processResult true use_symlinks env review_dir r).registered
      = (processResult false use_symlinks (noFailEnv pe) review_dir r).registered ∧
    (processResult true use_symlinks env review_dir r).record
      = (processResult false use_symlinks (noFailEnv pe) review_dir r).record ∧
    (processResult true use_symlinks env review_dir r).errorRec
      = (processResult false use_symlinks (noFailEnv pe) review_dir r).errorRec ∧
    (processResult true use_symlinks env review_dir r).ops = [] := by
  by_cases hp : (r.path.dropLast).isEmpty
  · simp [processResult, hp, noFailEnv]
  · cases hmax : pyMax (r.detections.map (·.confidence)) with
    | none => simp [processResult, hp, hmax, noFailEnv]
    | some mc =>
      cases use_symlinks with
      | false => simp [processResult, hp, hmax, noFailEnv]
      | true => simp [processResult, hp, hmax, noFailEnv]

/-- The dry-run fold performs no filesystem operation beyond what was already
accumulated. -/
theorem fold_dry_ops (use_symlinks : Bool) (env : FsEnv)
    (review_dir : List String) :
    ∀ (results : List DetResult) (mv : Movements) (ops : List FsOp),
      (results.foldl (moveStep true use_symlinks env review_dir) (mv, ops)).2 = ops := by
  intro results
  induction results with
  | nil =>
    intro mv ops
    rfl
  | cons r rest ih =>
    intro mv ops
    rw [List.foldl_cons]
    by_cases hr : r.has_detections
    · have ho := (processResult_dry_parts use_symlinks env (fun _ => false)
        review_dir r).2.2.2
      simp only [moveStep, hr, if_true, ho, List.append_nil]
      exact ih _ ops
    · simp only [moveStep, hr]
      simp only [Bool.false_eq_true, if_false]
      exact ih mv ops

/-- The movements accumulator evolves identically in a dry run (any
environment) and in a real run in which no filesystem operation fails. -/
theorem fold_dry_movements (use_symlinks : Bool) (env : FsEnv)
    (pe : List String → Bool) (review_dir : List String) :
    ∀ (results : List DetResult) (mv : Movements) (o1 o2 : List FsOp),
      (results.foldl (moveStep true use_symlinks env review_dir) (mv, o1)).1
        = (results.foldl (moveStep false use_symlinks (noFailEnv pe) review_dir)
            (mv, o2)).1 := by
  intro results
  induction results with
  | nil =>
    intro mv o1 o2
    rfl
  | cons r rest ih =>
    intro mv o1 o2
    rw [List.foldl_cons, List.foldl_cons]
    by_cases hr : r.has_detections
    · have hparts := processResult_dry_parts use_symlinks env pe review_dir r
      simp only [moveStep, hr, if_true]
      have happ : applyOut mv (processResult true use_symlinks env review_dir r)
          = applyOut mv (processResult false use_symlinks (noFailEnv pe) review_dir r) := by
        simp only [applyOut, hparts.1, hparts.2.1, hparts.2.2.1]
      rw [happ]
      exact ih _ _ _
    · simp only [moveStep, hr]
      simp only [Bool.false_eq_true, if_false]
      exact ih mv o1 o2

end DetectAnimals

/-- Claim C2: for every list of Results and every review directory,
`move_to_review` called with `dry_run=True` performs no filesystem mutation
— it creates no directory, moves, links or deletes no file, and writes
neither `review_summary.json` nor `README.txt` — yet still computes and
returns a summary whose candidate counts (total, per animal type, mixed, and
error count) equal those of a non-dry run, with no failing filesystem
operation, on the same Results. -/
theorem move_to_review_dry_run (results : List DetectAnimals.DetResult)
    (review_dir : List String) (use_symlinks : Bool) (env : FsEnv)
    (pe : List String → Bool) :
    (DetectAnimals.move_to_review results review_dir true use_symlinks env).2 = [] ∧
    (DetectAnimals.move_to_review results review_dir true use_symlinks env).1.total_candidates
      = (DetectAnimals.move_to_review results review_dir false use_symlinks
          (noFailEnv pe)).1.total_candidates ∧
    (DetectAnimals.move_to_review results review_dir true use_symlinks env).1.by_animal_type
      = (DetectAnimals.move_to_review results review_dir false use_symlinks
          (noFailEnv pe)).1.by_animal_type ∧
    (DetectAnimals.move_to_review results review_dir true use_symlinks env).1.mixed_animals
      = (DetectAnimals.move_to_review results review_dir false use_symlinks
          (noFailEnv pe)).1.mixed_animals ∧
    (DetectAnimals.move_to_review results review_dir true use_symlinks env).1.errors
      = (DetectAnimals.move_to_review results review_dir false use_symlinks
          (noFailEnv pe)).1.errors := by
  have hmv := DetectAnimals.fold_dry_movements use_symlinks env pe review_dir results
    DetectAnimals.emptyMovements []
    [FsOp.mkdir (review_dir ++ ["by_animal_type"]),
     FsOp.mkdir (review_dir ++ ["mixed_animals"])]
  have hops := DetectAnimals.fold_dry_ops use_symlinks env review_dir results
    DetectAnimals.emptyMovements []
  refine ⟨?_, ?_, ?_, ?_, ?_⟩ <;>
    simp [DetectAnimals.move_to_review, hmv, hops]

/-- Counterexample to claim C5: for a Result with the single subject-type
label `cat`, the target bucket path computed by `move_to_review` is
`by_animal_type/cat` under the output root — not `by_type/cat` as the claim
states (and for multiple labels the bucket directory is `mixed_animals`, not
`mixed`). -/
theorem move_to_review_subject_type_cex :
    (DetectAnimals.move_to_review
        [{ path := ["g", "x", "a.jpg"], width := some 10, height := some 10,
           detections := [{ bbox := (0, 0, 1, 1), confidence := 1, cls := 15,
                            class_name := "cat" }],
           count := 1, has_detections := true, animal_types := ["cat"],
           error := none }]
        ["rev"] true false
        { fails := fun _ => false, pathExists := fun _ => false }).1.movements.by_type
      = [("cat", [{ source := ["g", "x", "a.jpg"],
                    target := ["rev", "by_animal_type", "cat", "x", "a.jpg"],
                    count := 1, types := ["cat"], max_confidence := 1 }])] ∧
    (["rev", "by_animal_type", "cat", "x", "a.jpg"] : List String)
      ≠ ["rev", "by_type", "cat", "x", "a.jpg"] := by
  constructor
  · decide
  · decide

namespace DetectAnimals

/-- Claim C5 as amended: under the by-subject-type policy, for every Result
with exactly one distinct subject-type label `l` (the detector emits the
distinct labels of the retained detections, so `animal_types` has no
duplicates) the computed bucket path is `by_animal_type/<l>` under the output
root, followed by the source directory relative to its first component and
the file name; for every Result with more than one distinct label the bucket
directory is `mixed_animals`; and a Result with `has_detections` false
(equivalently, by the C3 invariant, zero detections) is never classified or
relocated.  Stated on a dry run; by C2 the classification is the same on a
real run. -/
theorem move_to_review_subject_type_amended (r : DetResult)
    (review_dir : List String) (use_symlinks : Bool) (env : FsEnv) (mc : ℚ)
    (hnd : r.animal_types.Nodup) (hhd : r.has_detections = true)
    (hp : 2 ≤ r.path.length)
    (hmc : pyMax (r.detections.map (·.confidence)) = some mc) :
    (∀ l : String, r.animal_types = [l] →
      (move_to_review [r] review_dir true use_symlinks env).1.movements
        = ⟨[(l, [⟨r.path,
                  review_dir ++ ["by_animal_type", l] ++ r.path.dropLast.tail
                    ++ [r.path.getLastD ""],
                  r.count, r.animal_types, mc⟩])], [], []⟩) ∧
    (2 ≤ r.animal_types.length →
      (move_to_review [r] review_dir true use_symlinks env).1.movements
        = ⟨[],
           [⟨r.path,
             review_dir ++ ["mixed_animals"] ++ r.path.dropLast.tail
               ++ [r.path.getLastD ""],
             r.count, r.animal_types, mc⟩], []⟩) ∧
    (∀ r0 : DetResult, r0.has_detections = false →
      (move_to_review [r0] review_dir true use_symlinks env).1.movements
        = emptyMovements ∧
      (move_to_review [r0] review_dir true use_symlinks env).2 = []) := by
  have hparent : (r.path.dropLast).isEmpty = false := by
    cases hE : r.path.dropLast with
    | nil =>
      exfalso
      have hdl := List.length_dropLast r.path
      rw [hE] at hdl
      simp only [List.length_nil] at hdl
      omega
    | cons a as => rfl
  refine ⟨?_, ?_, ?_⟩
  · intro l hl
    simp [move_to_review, moveStep, hhd, processResult, hl, hparent, hmc,
      applyOut, registerType, appendToType, emptyMovements]
  · intro h2
    have hone : (r.animal_types.length == 1) = false := by
      simp only [beq_eq_false_iff_ne]
      omega
    simp [move_to_review, moveStep, hhd, processResult, hone, hparent, hmc,
      applyOut, registerType, appendToType, emptyMovements]
  · intro r0 h0
    constructor
    · simp [move_to_review, moveStep, h0]
    · simp [move_to_review, moveStep, h0]

end DetectAnimals

/-- Witness for the amended C5 at a concrete single-label Result. -/
theorem move_to_review_subject_type_amended_witness :
    (DetectAnimals.move_to_review
        [{ path := ["g", "x", "a.jpg"], width := some 10, height := some 10,
           detections := [{ bbox := (0, 0, 1, 1), confidence := 1, cls := 15,
                            class_name := "cat" }],
           count := 1, has_detections := true, animal_types := ["cat"],
           error := none }]
        ["base"] true true
        { fails := fun _ => false, pathExists := fun _ => false }).1.movements
      = ⟨[("cat", [⟨["g", "x", "a.jpg"],
                    ["base", "by_animal_type", "cat", "x", "a.jpg"],
                    1, ["cat"], 1⟩])], [], []⟩ :=
  (DetectAnimals.move_to_review_subject_type_amended
      { path := ["g", "x", "a.jpg"], width := some 10, height := some 10,
        detections := [{ bbox := (0, 0, 1, 1), confidence := 1, cls := 15,
                         class_name := "cat" }],
        count := 1, has_detections := true, animal_types := ["cat"],
        error := none }
      ["base"] true { fails := fun _ => false, pathExists := fun _ => false } 1
      (by decide) rfl (by decide) rfl).1 "cat" rfl

namespace DetectAnimals

/-- Registering a by-type key adds no movement record. -/
theorem sumByType_registerType (m : List (String × List MovementInfo))
    (k : String) : sumByType (registerType m k) = sumByType m := by
  unfold registerType
  split
  · rfl
  · simp [sumByType]

/-- Appending a movement record to a by-type bucket adds exactly one. -/
theorem sumByType_appendToType (m : List (String × List MovementInfo))
    (k : String) (v : MovementInfo) :
    sumByType (appendToType m k v) = sumByType m + 1 := by
  induction m with
  | nil => simp [appendToType, sumByType]
  | cons q rest ih =>
    obtain ⟨k', vs⟩ := q
    by_cases hk : (k' == k) = true
    · simp [appendToType, hk, sumByType]
      omega
    · simp only [appendToType, hk, Bool.false_eq_true, if_false]
      simp only [sumByType, List.map_cons, List.sum_cons] at ih ⊢
      omega

/-- Folding one iteration's contributions adds exactly its record count. -/
theorem applyOut_recordCount (mv : Movements) (out : ProcOut) :
    (applyOut mv out).recordCount = mv.recordCount + out.recordCount := by
  rcases out with ⟨reg, rec, err, ops⟩
  rcases rec with _ | ⟨cat, i⟩
  · cases reg <;> cases err <;>
      simp [applyOut, ProcOut.recordCount, Movements.recordCount,
        sumByType_registerType] <;>
      omega
  · cases cat <;> cases reg <;> cases err <;>
      simp [applyOut, ProcOut.recordCount, Movements.recordCount,
        sumByType_registerType, sumByType_appendToType] <;>
      omega

/-- Every processed result contributes a movement record or an error
record. -/
theorem processResult_produces (dry_run use_symlinks : Bool) (env : FsEnv)
    (review_dir : List String) (r : DetResult) :
    (processResult dry_run use_symlinks env review_dir r).record.isSome = true ∨
    (processResult dry_run use_symlinks env review_dir r).errorRec.isSome = true := by
  simp only [processResult]
  repeat' (first | exact Or.inl rfl | exact Or.inr rfl | split)

/-- Record-count bounds for one iteration: at least one record, at most two,
and exactly two precisely when both a movement record and an error record
were produced (the relocation failed after the record was appended). -/
theorem processResult_recordCount_bounds (dry_run use_symlinks : Bool)
    (env : FsEnv) (review_dir : List String) (r : DetResult) :
    1 ≤ (processResult dry_run use_symlinks env review_dir r).recordCount ∧
    (processResult dry_run use_symlinks env review_dir r).recordCount ≤ 2 ∧
    ((processResult dry_run use_symlinks env review_dir r).recordCount = 2 ↔
      (processResult dry_run use_symlinks env review_dir r).record.isSome = true ∧
      (processResult dry_run use_symlinks env review_dir r).errorRec.isSome = true) := by
  have h := processResult_produces dry_run use_symlinks env review_dir r
  unfold ProcOut.recordCount
  cases hr : (processResult dry_run use_symlinks env review_dir r).record.isSome <;>
    cases he : (processResult dry_run use_symlinks env review_dir r).errorRec.isSome <;>
    simp_all

/-- The accumulated record count over the loop is the sum of the per-result
contributions of exactly the results that have detections: processing is
per-result, so one file's failure never suppresses later files'
contributions. -/
theorem fold_recordCount (dry_run use_symlinks : Bool) (env : FsEnv)
    (review_dir : List String) :
    ∀ (results : List DetResult) (mv : Movements) (ops : List FsOp),
      ((results.foldl (moveStep dry_run use_symlinks env review_dir) (mv, ops)).1).recordCount
        = mv.recordCount
          + ((results.filter (fun r => r.has_detections)).map
              (fun r => (processResult dry_run use_symlinks env review_dir r).recordCount)).sum := by
  intro results
  induction results with
  | nil =>
    intro mv ops
    simp
  | cons r rest ih =>
    intro mv ops
    rw [List.foldl_cons]
    by_cases hr : r.has_detections
    · simp only [moveStep, hr, if_true]
      rw [ih, applyOut_recordCount]
      simp [hr]
      omega
    · simp only [moveStep, hr, Bool.false_eq_true, if_false]
      rw [ih]
      simp [hr]

end DetectAnimals

/-- Counterexample to claim C6: with one input Result that has detections and
an environment in which the `shutil.move` raises, `move_to_review` produces
TWO relocation records for that single result — the movement record was
already appended to its bucket before the move was attempted, and the caught
exception then appends an error record as well — so the number of records
(bucket entries plus error entries) is 2, not the claimed 1. -/
theorem move_to_review_record_count_cex :
    (DetectAnimals.move_to_review
        [{ path := ["g", "x", "b.jpg"], width := some 10, height := some 10,
           detections := [{ bbox := (0, 0, 2, 2), confidence := 1, cls := 16,
                            class_name := "dog" }],
           count := 1, has_detections := true, animal_types := ["dog"],
           error := none }]
        ["rev"] false false
        ⟨fun op => match op with
          | FsOp.move _ _ => true
          | _ => false,
         fun _ => false⟩).1.movements.recordCount = 2 ∧
    (([{ path := ["g", "x", "b.jpg"], width := some 10, height := some 10,
         detections := [{ bbox := (0, 0, 2, 2), confidence := 1, cls := 16,
                          class_name := "dog" }],
         count := 1, has_detections := true, animal_types := ["dog"],
         error := none }] :
        List DetectAnimals.DetResult).filter
          (fun r => r.has_detections)).length = 1 := by
  constructor
  · decide
  · decide

/-- Claim C6 as amended: the records produced by `move_to_review` (movement
records in the buckets plus error records) number one per input Result with
`has_detections == true` — so no record ever arises from a Result without
detections — EXCEPT that a result whose filesystem relocation fails after its
movement record was appended contributes a second, error record.  Formally:
the total record count is the sum, over exactly the Results with detections,
of a per-result contribution that is always 1 or 2, and is 2 precisely when
both a movement record and an error record were produced for that result.
The sum ranges over every Result with detections, so an exception during one
file's relocation is caught, recorded, and does not abort the processing of
the remaining files. -/
theorem move_to_review_record_count_amended
    (results : List DetectAnimals.DetResult) (review_dir : List String)
    (dry_run use_symlinks : Bool) (env : FsEnv) :
    (DetectAnimals.move_to_review results review_dir dry_run use_symlinks
        env).1.movements.recordCount
      = ((results.filter (fun r => r.has_detections)).map
          (fun r => (DetectAnimals.processResult dry_run use_symlinks env
            review_dir r).recordCount)).sum ∧
    ∀ r : DetectAnimals.DetResult,
      1 ≤ (DetectAnimals.processResult dry_run use_symlinks env review_dir
            r).recordCount ∧
      (DetectAnimals.processResult dry_run use_symlinks env review_dir
          r).recordCount ≤ 2 ∧
      ((DetectAnimals.processResult dry_run use_symlinks env review_dir
          r).recordCount = 2 ↔
        (DetectAnimals.processResult dry_run use_symlinks env review_dir
          r).record.isSome = true ∧
        (DetectAnimals.processResult dry_run use_symlinks env review_dir
          r).errorRec.isSome = true) := by
  constructor
  · have h := DetectAnimals.fold_recordCount dry_run use_symlinks env review_dir
      results DetectAnimals.emptyMovements
      (if dry_run then []
       else [FsOp.mkdir (review_dir ++ ["by_animal_type"]),
             FsOp.mkdir (review_dir ++ ["mixed_animals"])])
    simp only [DetectAnimals.move_to_review]
    rw [h]
    simp [DetectAnimals.Movements.recordCount, DetectAnimals.emptyMovements,
      DetectAnimals.sumByType]
  · intro r
    exact DetectAnimals.processResult_recordCount_bounds dry_run use_symlinks
      env review_dir r

/-- A path of at least two components has a nonempty parent. -/
theorem dropLast_isEmpty_false (l : List String) (hp : 2 ≤ l.length) :
    (l.dropLast).isEmpty = false := by
  cases hE : l.dropLast with
  | nil =>
    exfalso
    have hdl := List.length_dropLast l
    rw [hE] at hdl
    simp only [List.length_nil] at hdl
    omega
  | cons a as => rfl

/-- Claim C4: under the by-confidence-band policy, a Result with at least one
detection is bucketed by the true numeric maximum confidence over all of its
retained detections — `pyMax` returns a member of the confidence list that
dominates every member, not merely the first one — and the bucket is `high`
iff that maximum is ≥ 0.8 (exactly 0.8 is high), `medium` iff it lies in
[0.5, 0.8) (exactly 0.5 is medium), and `low` otherwise.  Stated on a
single-result dry run of the confidence-band `move_to_review`; the band
choice is the same in every mode. -/
theorem move_to_review_confidence_bands (r : DetectFaces.DetResult)
    (review_dir : List String) (use_symlinks : Bool) (env : FsEnv) (mc : ℚ)
    (hhd : r.has_detections = true) (hp : 2 ≤ r.path.length)
    (hmc : pyMax (r.detections.map (·.confidence)) = some mc) :
    (mc ∈ r.detections.map (·.confidence) ∧
      ∀ c ∈ r.detections.map (·.confidence), c ≤ mc) ∧
    ((DetectFaces.move_to_review [r] review_dir true use_symlinks
        env).1.high_confidence = 1 ↔ 4/5 ≤ mc) ∧
    ((DetectFaces.move_to_review [r] review_dir true use_symlinks
        env).1.medium_confidence = 1 ↔ (1/2 ≤ mc ∧ mc < 4/5)) ∧
    ((DetectFaces.move_to_review [r] review_dir true use_symlinks
        env).1.low_confidence = 1 ↔ mc < 1/2) := by
  have hparent := dropLast_isEmpty_false r.path hp
  refine ⟨pyMax_spec _ _ hmc, ?_⟩
  rcases le_or_lt (4/5 : ℚ) mc with h4 | h4
  · have hnm : ¬(mc < (4/5 : ℚ)) := not_lt.mpr h4
    have h2i : ((2 : ℚ))⁻¹ ≤ mc := by
      rw [inv_eq_one_div]
      linarith
    have hnl : ¬(mc < ((2 : ℚ))⁻¹) := not_lt.mpr h2i
    refine ⟨?_, ?_, ?_⟩ <;>
      simp [DetectFaces.move_to_review, DetectFaces.moveStep, hhd,
        DetectFaces.processResult, hmc, hparent, DetectFaces.applyOut,
        DetectFaces.emptyMovements, h4, hnm, hnl, h2i]
  · rcases le_or_lt (1/2 : ℚ) mc with h2 | h2
    · have hn4 : ¬((4/5 : ℚ) ≤ mc) := not_le.mpr h4
      have h2i : ((2 : ℚ))⁻¹ ≤ mc := by
        rw [inv_eq_one_div]
        linarith
      have hnl : ¬(mc < ((2 : ℚ))⁻¹) := not_lt.mpr h2i
      refine ⟨?_, ?_, ?_⟩ <;>
        simp [DetectFaces.move_to_review, DetectFaces.moveStep, hhd,
          DetectFaces.processResult, hmc, hparent, DetectFaces.applyOut,
          DetectFaces.emptyMovements, hn4, h2, h4, hnl, h2i]
    · have hn4 : ¬((4/5 : ℚ) ≤ mc) := not_le.mpr (by linarith)
      have h2i : mc < ((2 : ℚ))⁻¹ := by
        rw [inv_eq_one_div]
        exact h2
      have hn2i : ¬(((2 : ℚ))⁻¹ ≤ mc) := not_le.mpr h2i
      refine ⟨?_, ?_, ?_⟩ <;>
        simp [DetectFaces.move_to_review, DetectFaces.moveStep, hhd,
          DetectFaces.processResult, hmc, hparent, DetectFaces.applyOut,
          DetectFaces.emptyMovements, hn4, hn2i, h2, h2i]

/-- Witness for C4 at a concrete Result whose maximum detection confidence
is 0.9: its record lands in the high-confidence bucket. -/
theorem move_to_review_confidence_bands_witness :
    (DetectFaces.move_to_review
        [{ path := ["g", "x", "c.jpg"], width := some 4, height := some 4,
           detections := [{ bbox := (0, 0, 1, 1), confidence := 9/10, cls := 0 }],
           count := 1, has_detections := true, error := none }]
        ["rev"] true false
        ⟨fun _ => false, fun _ => false⟩).1.high_confidence = 1 :=
  ((move_to_review_confidence_bands
      { path := ["g", "x", "c.jpg"], width := some 4, height := some 4,
        detections := [{ bbox := (0, 0, 1, 1), confidence := 9/10, cls := 0 }],
        count := 1, has_detections := true, error := none }
      ["rev"] false ⟨fun _ => false, fun _ => false⟩ (9/10)
      rfl (by decide) rfl).2.1).mpr (by norm_num)
